import Mathlib

/-
Verification of the annotation accessor shim of libsbml-rs.

The repository consists of two C++ headers, src/utils.hpp and
src/annotation.hpp, each defining free functions in namespace utils that
null-guard and delegate to the external libSBML library's annotation
accessors on five element kinds (Model, Compartment, Species,
UnitDefinition, Unit).

The embedding below models the externally owned element objects as a heap
of records, the handles as optional pointers into that heap, and each shim
function as a direct translation of its C++ body.  The external library's
own accessors, which are not part of this repository, are modelled from
the spec.
-/

set_option autoImplicit false

namespace LibSBML

/-- Modelled from the spec: an externally owned SBML element (Model,
Compartment, Species, UnitDefinition or Unit).  Per the spec's data model,
each element optionally carries a single annotation string field owned by
the external library; `rest` stands for all of the element's other fields,
which the shim never touches. -/
structure Element where
  annot : Option String
  rest : String
deriving DecidableEq

/-- Modelled from the spec: the external library's SBase accessor that
reports whether an annotation is currently set on the element. -/
def isSetAnnotation (e : Element) : Bool := e.annot.isSome

/-- Modelled from the spec: the external library's SBase accessor that
returns the annotation content currently stored on the element (the empty
string when none is stored; the shim only calls it after checking
`isSetAnnotation`). -/
def getAnnotationString (e : Element) : String := e.annot.getD ""

/-- Modelled from the spec: the external library's SBase annotation
mutator.  Per the spec, the content it receives is accepted and stored
as-is, replacing any previous annotation; validity enforcement is deferred
entirely to the external library and is not modelled. -/
def storeAnnot (e : Element) (a : String) : Element :=
  { e with annot := some a }

/-- Transmission of a `std::string` through `.c_str()` into a
`const char*` parameter (the C++ overload resolution converts the pointer
back to a `std::string` by reading it as a NUL-terminated C string): only
the characters before the first embedded NUL are transmitted. -/
def cStrChars : List Char → List Char
  | [] => []
  | c :: cs => if c = Char.ofNat 0 then [] else c :: cStrChars cs

/-- The string actually received by the external library when the shim
passes `annotation.c_str()`. -/
def cStr (s : String) : String := ⟨cStrChars s.data⟩

end LibSBML

namespace utils

open LibSBML

/-- A C++ pointer to an externally owned element: the heap address. -/
abbrev Ptr := Nat

/-- A possibly-null element pointer, as taken by every shim function. -/
abbrev Handle := Option Ptr

/-- The externally owned store of elements the pointers refer to. -/
abbrev Heap := Ptr → Element

/-- Embedding of utils.hpp `getModelAnnotationString` (lines 19-24):
null-check the pointer, check `isSetAnnotation`, delegate to
`getAnnotationString`, else return the empty string. -/
def getModelAnnotationString (heap : Heap) (model : Handle) : String :=
  match model with
  | some p => if isSetAnnotation (heap p) then getAnnotationString (heap p) else ""
  | none => ""

/-- Embedding of utils.hpp `setModelAnnotation` (lines 32-36): if the
pointer is non-null, forward `annotation.c_str()` to the external
library's mutator on the pointed-to element; otherwise do nothing. -/
def setModelAnnotation (heap : Heap) (model : Handle) (a : String) : Heap :=
  match model with
  | some p => fun q => if q = p then storeAnnot (heap p) (cStr a) else heap q
  | none => heap

/-- Embedding of utils.hpp `getCompartmentAnnotationString` (lines 51-56). -/
def getCompartmentAnnotationString (heap : Heap) (compartment : Handle) : String :=
  match compartment with
  | some p => if isSetAnnotation (heap p) then getAnnotationString (heap p) else ""
  | none => ""

/-- Embedding of utils.hpp `setCompartmentAnnotation` (lines 64-68). -/
def setCompartmentAnnotation (heap : Heap) (compartment : Handle) (a : String) : Heap :=
  match compartment with
  | some p => fun q => if q = p then storeAnnot (heap p) (cStr a) else heap q
  | none => heap

/-- Embedding of utils.hpp `getSpeciesAnnotationString` (lines 83-88). -/
def getSpeciesAnnotationString (heap : Heap) (species : Handle) : String :=
  match species with
  | some p => if isSetAnnotation (heap p) then getAnnotationString (heap p) else ""
  | none => ""

/-- Embedding of utils.hpp `setSpeciesAnnotation` (lines 96-100). -/
def setSpeciesAnnotation (heap : Heap) (species : Handle) (a : String) : Heap :=
  match species with
  | some p => fun q => if q = p then storeAnnot (heap p) (cStr a) else heap q
  | none => heap

/-- Embedding of utils.hpp `getUnitDefinitionAnnotationString` (lines 115-120). -/
def getUnitDefinitionAnnotationString (heap : Heap) (unit_definition : Handle) : String :=
  match unit_definition with
  | some p => if isSetAnnotation (heap p) then getAnnotationString (heap p) else ""
  | none => ""

/-- Embedding of utils.hpp `setUnitDefinitionAnnotation` (lines 129-133). -/
def setUnitDefinitionAnnotation (heap : Heap) (unit_definition : Handle) (a : String) : Heap :=
  match unit_definition with
  | some p => fun q => if q = p then storeAnnot (heap p) (cStr a) else heap q
  | none => heap

/-- Embedding of utils.hpp `getUnitAnnotationString` (lines 148-153). -/
def getUnitAnnotationString (heap : Heap) (unit : Handle) : String :=
  match unit with
  | some p => if isSetAnnotation (heap p) then getAnnotationString (heap p) else ""
  | none => ""

/-- Embedding of utils.hpp `setUnitAnnotation` (lines 161-165). -/
def setUnitAnnotation (heap : Heap) (unit : Handle) (a : String) : Heap :=
  match unit with
  | some p => fun q => if q = p then storeAnnot (heap p) (cStr a) else heap q
  | none => heap

/-- The five element kinds supported by the shim. -/
inductive Kind where
  | model
  | compartment
  | species
  | unitDefinition
  | unit
deriving DecidableEq

/-- The getter of a given element kind. -/
def getAnnotationStringFor : Kind → Heap → Handle → String
  | .model => getModelAnnotationString
  | .compartment => getCompartmentAnnotationString
  | .species => getSpeciesAnnotationString
  | .unitDefinition => getUnitDefinitionAnnotationString
  | .unit => getUnitAnnotationString

/-- The setter of a given element kind. -/
def setAnnotationFor : Kind → Heap → Handle → String → Heap
  | .model => setModelAnnotation
  | .compartment => setCompartmentAnnotation
  | .species => setSpeciesAnnotation
  | .unitDefinition => setUnitDefinitionAnnotation
  | .unit => setUnitAnnotation

end utils

namespace annotation_hpp

open LibSBML utils

/-- Embedding of annotation.hpp `getSpeciesAnnotationString` (lines 6-11),
the second definition of the function, in the parallel header. -/
def getSpeciesAnnotationString (heap : Heap) (species : Handle) : String :=
  match species with
  | some p => if isSetAnnotation (heap p) then getAnnotationString (heap p) else ""
  | none => ""

end annotation_hpp

namespace utils

/-- The names of the functions defined by src/utils.hpp, in source order. -/
def utilsHppFunctionNames : List String :=
  ["getModelAnnotationString", "setModelAnnotation",
   "getCompartmentAnnotationString", "setCompartmentAnnotation",
   "getSpeciesAnnotationString", "setSpeciesAnnotation",
   "getUnitDefinitionAnnotationString", "setUnitDefinitionAnnotation",
   "getUnitAnnotationString", "setUnitAnnotation"]

/-- The names of the functions defined by src/annotation.hpp. -/
def annotationHppFunctionNames : List String :=
  ["getSpeciesAnnotationString"]

/-- A concrete example heap for witnesses: every element has no annotation
set and opaque other fields. -/
def exHeap : Heap := fun _ => { annot := none, rest := "fields" }

/-- A concrete string with an embedded NUL character. -/
def exNul : String := "a\x00b"

end utils

namespace utils

open LibSBML

/-- A concrete example heap for witnesses: every element carries the
annotation `<x/>`. -/
def exHeapSet : Heap := fun _ => { annot := some "<x/>", rest := "fields" }

/-- All five getters agree on non-null handles with the common
null-guard-and-delegate body. -/
theorem getFor_some (k : Kind) (heap : Heap) (p : Ptr) :
    getAnnotationStringFor k heap (some p) =
      if isSetAnnotation (heap p) then getAnnotationString (heap p) else "" := by
  cases k <;> rfl

/-- All five getters return the empty string on the null handle. -/
theorem getFor_none (k : Kind) (heap : Heap) :
    getAnnotationStringFor k heap none = "" := by
  cases k <;> rfl

/-- All five setters agree on non-null handles with the common
null-guard-and-delegate body. -/
theorem setFor_some (k : Kind) (heap : Heap) (p : Ptr) (a : String) :
    setAnnotationFor k heap (some p) a =
      fun q => if q = p then storeAnnot (heap p) (cStr a) else heap q := by
  cases k <;> rfl

/-- All five setters leave the heap untouched on the null handle. -/
theorem setFor_none (k : Kind) (heap : Heap) (a : String) :
    setAnnotationFor k heap none a = heap := by
  cases k <;> rfl

/-- Dropping characters at the first NUL strictly shortens a character
list that contains a NUL. -/
theorem cStrChars_length_lt (l : List Char) (h : Char.ofNat 0 ∈ l) :
    (cStrChars l).length < l.length := by
  induction l with
  | nil => cases h
  | cons c cs ih =>
    by_cases hc : c = Char.ofNat 0
    · simp only [cStrChars, if_pos hc, List.length_nil, List.length_cons]
      exact Nat.succ_pos _
    · have hcs : Char.ofNat 0 ∈ cs := by
        rcases List.mem_cons.mp h with h1 | h1
        · exact absurd h1.symm hc
        · exact h1
      simp only [cStrChars, if_neg hc, List.length_cons]
      exact Nat.succ_lt_succ (ih hcs)

/-- A string containing an embedded NUL is changed by C-string
transmission. -/
theorem cStr_ne_self (s : String) (h : Char.ofNat 0 ∈ s.data) : cStr s ≠ s := by
  intro he
  have hd : cStrChars s.data = s.data := congrArg String.data he
  have hlt := cStrChars_length_lt s.data h
  rw [hd] at hlt
  exact Nat.lt_irrefl _ hlt

end utils

namespace utils

open LibSBML

/-- Claim C1: for every supported element kind, every non-null handle and
every string s, after the kind's setter stores s the kind's getter returns
s, under the hypothesis that the external storage accepts s unchanged
(here: C-string transmission leaves s unchanged). -/
theorem c1_set_get_roundtrip (k : Kind) (heap : Heap) (p : Ptr) (s : String)
    (hs : cStr s = s) :
    getAnnotationStringFor k ( setAnnotationFor k heap (some p) s) (some p) = s := by
  rw [getFor_some, setFor_some]
  simp [ isSetAnnotation, storeAnnot, getAnnotationString, hs]

/-- Witness for C1 at kind Model, pointer 0 and the string "hi". -/
theorem c1_set_get_roundtrip_witness :
    cStr "hi" = "hi" ∧
    getAnnotationStringFor .model ( setAnnotationFor .model exHeap (some 0) "hi")
      (some 0) = "hi" :=
  ⟨by decide, c1_set_get_roundtrip .model exHeap 0 "hi" (by decide)⟩

/-- Claim C2: for every supported element kind the getter returns the
empty string on the null handle, and on a non-null handle with no
annotation set it returns the same value as on the null handle, so the two
cases cannot be distinguished by the getter's return value alone. -/
theorem c2_null_getter_indistinguishable (k : Kind) :
    (∀ heap : Heap, getAnnotationStringFor k heap none = "") ∧
    ∀ (heap : Heap) (p : Ptr), (heap p).annot = none →
      getAnnotationStringFor k heap (some p) = getAnnotationStringFor k heap none := by
  refine ⟨fun heap => getFor_none k heap, fun heap p h => ?_⟩
  rw [getFor_some, getFor_none]
  simp [ isSetAnnotation, h]

/-- Witness for C2 at kind Species and a heap whose element 0 has no
annotation set. -/
theorem c2_null_getter_indistinguishable_witness :
    getAnnotationStringFor .species exHeap none = "" ∧
    (exHeap 0).annot = none ∧
    getAnnotationStringFor .species exHeap (some 0) =
      getAnnotationStringFor .species exHeap none :=
  ⟨(c2_null_getter_indistinguishable .species).1 exHeap, rfl,
    (c2_null_getter_indistinguishable .species).2 exHeap 0 rfl⟩

/-- Claim C3: for every supported element kind and every string argument,
the setter on the null handle is a no-op: the heap is returned unchanged
and no fault is raised (the function is total). -/
theorem c3_null_setter_noop (k : Kind) (heap : Heap) (a : String) :
    setAnnotationFor k heap none a = heap := by
  cases k <;> rfl

/-- Claim C4: for every supported element kind and every non-null handle
on which no annotation is set, the getter returns the empty string. -/
theorem c4_unset_getter_empty (k : Kind) (heap : Heap) (p : Ptr)
    (h : (heap p).annot = none) :
    getAnnotationStringFor k heap (some p) = "" := by
  rw [getFor_some]
  simp [ isSetAnnotation, h]

/-- Witness for C4 at kind Compartment and pointer 1 of the unset heap. -/
theorem c4_unset_getter_empty_witness :
    (exHeap 1).annot = none ∧ getAnnotationStringFor .compartment exHeap (some 1) = "" :=
  ⟨rfl, c4_unset_getter_empty .compartment exHeap 1 rfl⟩

/-- Claim C5: for every supported element kind and every non-null handle
whose annotation is set, the getter returns exactly the stored annotation
content, with no normalization, trimming or parsing. -/
theorem c5_getter_exact (k : Kind) (heap : Heap) (p : Ptr) (a : String)
    (h : (heap p).annot = some a) :
    getAnnotationStringFor k heap (some p) = a := by
  rw [getFor_some]
  simp [ isSetAnnotation, getAnnotationString, h]

/-- Witness for C5 at kind Unit and a heap whose element 0 stores the
annotation `<x/>`. -/
theorem c5_getter_exact_witness :
    (exHeapSet 0).annot = some "<x/>" ∧
    getAnnotationStringFor .unit exHeapSet (some 0) = "<x/>" :=
  ⟨rfl, c5_getter_exact .unit exHeapSet 0 "<x/>" rfl⟩

/-- Counterexample to C6 as stated: with the string "a\x00b", which
contains an embedded NUL, the annotation stored by the setter is not the
argument verbatim (only "a" is transmitted through c_str()). -/
theorem c6_counterexample :
    (( setAnnotationFor .model exHeap (some 0) exNul) 0).annot ≠ some exNul := by
  decide

/-- Claim C6 (amended): for every supported element kind, every non-null
handle and every string text, the setter performs no validation and
replaces the element's annotation with the C-string image of text (text
truncated at its first embedded NUL — text verbatim whenever text contains
no NUL, in particular for all malformed XML without NULs, which is
accepted and stored as-is). -/
theorem c6_setter_stores_verbatim_cstr (k : Kind) (heap : Heap) (p : Ptr)
    (text : String) :
    (( setAnnotationFor k heap (some p) text) p).annot = some (cStr text) := by
  rw [setFor_some]
  simp [ storeAnnot]

/-- Counterexample to C7 as stated: setting "first" and then the
NUL-containing string "a\x00b" on the same handle does not make the second
argument retrievable via the getter. -/
theorem c7_counterexample :
    getAnnotationStringFor .model
      ( setAnnotationFor .model ( setAnnotationFor .model exHeap (some 0) "first")
        (some 0) exNul)
      (some 0) ≠ exNul := by
  decide

/-- Claim C7 (amended): for every supported element kind, every non-null
handle and all strings s1 and s2, after setting s1 and then s2 on the same
handle only s2 is retrievable via the getter — last-write-wins, no
accumulation — provided the external storage accepts s2 unchanged (here:
C-string transmission leaves s2 unchanged). -/
theorem c7_last_write_wins (k : Kind) (heap : Heap) (p : Ptr) (s1 s2 : String)
    (hs : cStr s2 = s2) :
    getAnnotationStringFor k
      ( setAnnotationFor k ( setAnnotationFor k heap (some p) s1) (some p) s2)
      (some p) = s2 := by
  rw [getFor_some, setFor_some, setFor_some]
  simp [ isSetAnnotation, storeAnnot, getAnnotationString, hs]

/-- Witness for C7 at kind Model with the strings "old" and "new". -/
theorem c7_last_write_wins_witness :
    cStr "new" = "new" ∧
    getAnnotationStringFor .model
      ( setAnnotationFor .model ( setAnnotationFor .model exHeap (some 0) "old")
        (some 0) "new")
      (some 0) = "new" :=
  ⟨by decide, c7_last_write_wins .model exHeap 0 "old" "new" (by decide)⟩

/-- Claim C8: for every supported element kind, a getter call reads only
the one element its handle points to (and reads nothing on the null
handle), so it leaves all state unchanged in this pure embedding; a setter
call changes at most the single annotation field of the one element whose
handle was passed — every other element is unchanged, the element's other
fields are unchanged, and the null-handle setter changes nothing. -/
theorem c8_frame_conditions (k : Kind) :
    (∀ (heap heap2 : Heap) (p : Ptr), heap p = heap2 p →
      getAnnotationStringFor k heap (some p) = getAnnotationStringFor k heap2 (some p)) ∧
    (∀ heap heap2 : Heap,
      getAnnotationStringFor k heap none = getAnnotationStringFor k heap2 none) ∧
    (∀ (heap : Heap) (p q : Ptr) (a : String), q ≠ p →
      ( setAnnotationFor k heap (some p) a) q = heap q) ∧
    (∀ (heap : Heap) (p : Ptr) (a : String),
      (( setAnnotationFor k heap (some p) a) p).rest = (heap p).rest) ∧
    (∀ (heap : Heap) (a : String), setAnnotationFor k heap none a = heap) := by
  refine ⟨fun heap heap2 p h => ?_, fun heap heap2 => by rw [getFor_none, getFor_none],
    fun heap p q a hqp => ?_, fun heap p a => ?_, fun heap a => setFor_none k heap a⟩
  · rw [getFor_some, getFor_some, h]
  · rw [setFor_some]
    simp [hqp]
  · rw [setFor_some]
    simp [ storeAnnot]

/-- Witness for C8 at kind Model: the getter agrees on heaps that agree at
pointer 0, a write to pointer 0 leaves pointer 1 untouched and leaves the
other fields of element 0 untouched, and the null-handle setter is the
identity. -/
theorem c8_frame_conditions_witness :
    getAnnotationStringFor .model exHeap (some 0) =
      getAnnotationStringFor .model exHeap (some 0) ∧
    ( setAnnotationFor .model exHeap (some 0) "x") 1 = exHeap 1 ∧
    (( setAnnotationFor .model exHeap (some 0) "x") 0).rest = (exHeap 0).rest ∧
    setAnnotationFor .model exHeap none "x" = exHeap :=
  ⟨(c8_frame_conditions .model).1 exHeap exHeap 0 rfl,
    (c8_frame_conditions .model).2.2.1 exHeap 0 1 "x" (by decide),
    (c8_frame_conditions .model).2.2.2.1 exHeap 0 "x",
    (c8_frame_conditions .model).2.2.2.2 exHeap "x"⟩

/-- Counterexample to C9 as stated: the two headers do not define the same
function set — utils.hpp defines setModelAnnotation and annotation.hpp
does not — so it is false that the duplicated set is the same and every
function of one header has a counterpart in the other. -/
theorem c9_counterexample :
    ¬ ((∀ n : String, n ∈ utilsHppFunctionNames ↔ n ∈ annotationHppFunctionNames) ∧
      ∀ (heap : Heap) (h : Handle),
        annotation_hpp.getSpeciesAnnotationString heap h =
          getSpeciesAnnotationString heap h) := by
  intro hcl
  have h1 := (hcl.1 "setModelAnnotation").mp (by decide)
  exact absurd h1 (by decide)

/-- Claim C9 (amended): annotation.hpp duplicates a strict subset of
utils.hpp — every function defined in annotation.hpp (there is exactly
one) has a structurally identical definition in utils.hpp, and in
particular the two definitions of getSpeciesAnnotationString compute the
same result for every input; the other nine functions of utils.hpp have no
counterpart in annotation.hpp. -/
theorem c9_duplicate_subset :
    (∀ n : String, n ∈ annotationHppFunctionNames → n ∈ utilsHppFunctionNames) ∧
    (∀ (heap : Heap) (h : Handle),
      annotation_hpp.getSpeciesAnnotationString heap h =
        getSpeciesAnnotationString heap h) ∧
    ¬ ∀ n : String, n ∈ utilsHppFunctionNames → n ∈ annotationHppFunctionNames := by
  refine ⟨fun n hn => ?_, fun heap h => rfl, fun hall => ?_⟩
  · rcases List.mem_singleton.mp hn with rfl
    decide
  · exact absurd (hall "setModelAnnotation" (by decide)) (by decide)

/-- Witness for C9 (amended): the duplicated name is in both headers and
the two definitions agree on a concrete input. -/
theorem c9_duplicate_subset_witness :
    "getSpeciesAnnotationString" ∈ utilsHppFunctionNames ∧
    annotation_hpp.getSpeciesAnnotationString exHeapSet (some 0) =
      getSpeciesAnnotationString exHeapSet (some 0) :=
  ⟨c9_duplicate_subset.1 "getSpeciesAnnotationString" (by decide),
    c9_duplicate_subset.2.1 exHeapSet (some 0)⟩

/-- Claim C10: for every supported element kind, every non-null handle and
every string s containing an embedded NUL character, the setter transmits
only the part of s before the first NUL (the text is forwarded via
c_str()), so the stored annotation is the truncated string and round-trip
identity fails for s. -/
theorem c10_nul_truncation (k : Kind) (heap : Heap) (p : Ptr) (s : String)
    (h : Char.ofNat 0 ∈ s.data) :
    (( setAnnotationFor k heap (some p) s) p).annot = some (cStr s) ∧
    getAnnotationStringFor k ( setAnnotationFor k heap (some p) s) (some p) = cStr s ∧
    getAnnotationStringFor k ( setAnnotationFor k heap (some p) s) (some p) ≠ s := by
  have h2 : getAnnotationStringFor k ( setAnnotationFor k heap (some p) s)
      (some p) = cStr s := by
    rw [getFor_some, setFor_some]
    simp [ isSetAnnotation, storeAnnot, getAnnotationString]
  refine ⟨?_, h2, ?_⟩
  · rw [setFor_some]
    simp [ storeAnnot]
  · rw [h2]
    exact cStr_ne_self s h

/-- Witness for C10 at kind Species with the NUL-containing string
"a\x00b", whose stored image is "a". -/
theorem c10_nul_truncation_witness :
    Char.ofNat 0 ∈ exNul.data ∧
    ((( setAnnotationFor .species exHeap (some 0) exNul) 0).annot = some (cStr exNul) ∧
      getAnnotationStringFor .species ( setAnnotationFor .species exHeap (some 0) exNul)
        (some 0) = cStr exNul ∧
      getAnnotationStringFor .species ( setAnnotationFor .species exHeap (some 0) exNul)
        (some 0) ≠ exNul) :=
  ⟨by decide, c10_nul_truncation .species exHeap 0 exNul (by decide)⟩

end utils
